import Mathlib

/-!
Shallow embedding of the license/session lifecycle engine of the
NizuaShop production server (Express + Mongoose), covering:

* `src/models/License.js`   — the license schema and its methods
  (`isExpired`, `shouldResetAttempts`, `bindToHWID`, `incrementAttempts`, …);
* `src/unnamed/part_001`    — the session schema and its methods
  (`isExpired`, `isActive`, `updateActivity`, `revoke`, `findByToken`);
* `src/models/AuditLog.js`  — `logEvent` (a plain `save()` with no
  internal error handling);
* `src/unnamed/part_004`    — the `POST /api/validate-key`,
  `POST /api/check-session` and `POST /api/logout` handlers;
* `src/middleware/auth.js`  — the `verifySession` middleware used by logout;
* `src/unnamed/part_003`    — the `PATCH /admin/licenses/:key/status` handler.

Times are integers in milliseconds since the epoch (`Date.now()` style).
External effects (Mongoose `save()` / `updateMany()` calls and audit-log
writes) are modelled by an explicit environment of success flags: a flag
set to `false` means the corresponding `await`ed promise rejects, which in
the JS source transfers control to the enclosing `catch` block.  The
database visible to later requests is threaded explicitly; a failed save
leaves the stored record unchanged (the in-memory mutation of the Mongoose
document dies with the request).
-/

/-- Status enum of `licenseSchema.status`. -/
inductive LicStatus where
  | active
  | expired
  | banned
  | suspended
deriving DecidableEq, Repr

/-- Status enum of `sessionSchema.status`. -/
inductive SessStatus where
  | active
  | expired
  | revoked
deriving DecidableEq, Repr

/-- Severity enum of `auditLogSchema.severity`. -/
inductive Severity where
  | info
  | warning
  | error
  | critical
deriving DecidableEq, Repr

/-- A stored license document (`licenseSchema` in `src/models/License.js`).
`hwid`, `lastAttempt`, `lastAttemptsReset`, `lastIP` are nullable. -/
structure License where
  key : String
  hwid : Option String
  used : Bool
  createdAt : Int
  expiresAt : Int
  status : LicStatus
  attempts : Nat
  lastAttempt : Option Int
  lastAttemptsReset : Option Int
  lastIP : Option String
  licenseType : String
  features : List String
  notes : String
deriving DecidableEq, Repr

/-- Milliseconds in one day: `1000 * 60 * 60 * 24`. -/
def msPerDay : Int := 1000 * 60 * 60 * 24

/-- `licenseSchema.methods.isExpired`: `new Date() > this.expiresAt`. -/
def License.isExpired (lic : License) (now : Int) : Bool :=
  now > lic.expiresAt

/-- `licenseSchema.methods.isActive`. -/
def License.isActive (lic : License) (now : Int) : Bool :=
  lic.status = LicStatus.active && !(lic.isExpired now)

/-- `licenseSchema.methods.bindToHWID`: sets `hwid`, `used = true`,
`lastAttempt = new Date()` (the `save()` is handled by the caller). -/
def License.bindToHWID (lic : License) (hwid : String) (now : Int) : License :=
  { lic with hwid := some hwid, used := true, lastAttempt := some now }

/-- `licenseSchema.methods.shouldResetAttempts`:
`Math.floor((now - lastReset) / (1000*60*60*24)) >= 1`, where
`lastReset = this.lastAttemptsReset || this.createdAt`.
`Int.fdiv` is floor division, matching JS `Math.floor` of the quotient. -/
def License.shouldResetAttempts (lic : License) (now : Int) : Bool :=
  let lastReset := lic.lastAttemptsReset.getD lic.createdAt
  Int.fdiv (now - lastReset) msPerDay ≥ 1

/-- `licenseSchema.methods.incrementAttempts(ip, fromStoredKey)`.
From `src/models/License.js`: if `fromStoredKey` only `lastAttempt`/`lastIP`
are refreshed; otherwise a lazy daily reset (`attempts = 0`,
`lastAttemptsReset = now`) may run first, then `attempts += 1`.
JS `if (ip) this.lastIP = ip` keeps the old value for a null/empty ip. -/
def License.incrementAttempts (lic : License) (now : Int) (ip : String)
    (fromStoredKey : Bool) : License :=
  if fromStoredKey then
    { lic with lastAttempt := some now,
               lastIP := if ip ≠ "" then some ip else lic.lastIP }
  else
    let l1 := if lic.shouldResetAttempts now then
                { lic with attempts := 0, lastAttemptsReset := some now }
              else lic
    { l1 with attempts := l1.attempts + 1,
              lastAttempt := some now,
              lastIP := if ip ≠ "" then some ip else l1.lastIP }

/-- A session token as minted by `jwt.sign` in the validate-key handler:
payload `{licenseKey, hwid, licenseType, features, iat}` plus the expiry
claim from `expiresIn` and the secret it was signed with (standing for the
HMAC signature). -/
structure Jwt where
  licenseKey : String
  hwid : String
  licenseType : String
  features : List String
  iat : Int
  exp : Int
  secret : String
deriving DecidableEq, Repr

/-- The two `jsonwebtoken` verification failures relevant here.  In the
library, `TokenExpiredError` is a distinct error class whose `name`
property is `"TokenExpiredError"`, not `"JsonWebTokenError"`. -/
inductive JwtError where
  | jsonWebTokenError
  | tokenExpiredError
deriving DecidableEq, Repr

/-- `jwt.verify(token, secret)`: signature is checked first, then the
embedded expiry claim against the current clock. -/
def jwtVerify (tok : Jwt) (secret : String) (now : Int) : Except JwtError Jwt :=
  if tok.secret ≠ secret then Except.error JwtError.jsonWebTokenError
  else if now > tok.exp then Except.error JwtError.tokenExpiredError
  else Except.ok tok

/-- A stored session document (`sessionSchema` in the session model file). -/
structure Session where
  sessionToken : Jwt
  licenseKey : String
  hwid : String
  createdAt : Int
  expiresAt : Int
  status : SessStatus
  lastActivity : Int
  createdIP : String
  lastIP : String
deriving DecidableEq, Repr

/-- `sessionSchema.methods.isExpired`. -/
def Session.isExpired (s : Session) (now : Int) : Bool :=
  now > s.expiresAt

/-- `sessionSchema.methods.isActive`:
`this.status === 'active' && !this.isExpired()`. -/
def Session.isActive (s : Session) (now : Int) : Bool :=
  s.status = SessStatus.active && !(s.isExpired now)

/-- `sessionSchema.methods.updateActivity(ip)`: refreshes `lastActivity`,
and `lastIP` when ip is truthy. -/
def Session.updateActivity (s : Session) (now : Int) (ip : String) : Session :=
  { s with lastActivity := now,
           lastIP := if ip ≠ "" then ip else s.lastIP }

/-- `sessionSchema.methods.revoke`: sets `status = 'revoked'`. -/
def Session.revoke (s : Session) : Session :=
  { s with status := SessStatus.revoked }

/-- `sessionSchema.statics.findByToken`: `findOne({sessionToken: token})`,
i.e. the first stored session carrying this token. -/
def findByToken (sessions : List Session) (tok : Jwt) : Option Session :=
  sessions.find? (fun s => s.sessionToken = tok)

/-- Replace the (first) document `findOne` would return, as `save()` on
that document does. -/
def saveFirstByToken (sessions : List Session) (tok : Jwt)
    (f : Session → Session) : List Session :=
  match sessions with
  | [] => []
  | s :: rest =>
      if s.sessionToken = tok then f s :: rest
      else s :: saveFirstByToken rest tok f

/-- One audit-log document as built by `AuditLog.logEvent(eventType, data)`
(`src/models/AuditLog.js`): the fields the core writes. -/
structure AuditEvent where
  eventType : String
  licenseKey : Option String
  hwid : Option String
  sessionToken : Option Jwt
  ipAddress : String
  severity : Severity
  reason : Option String
deriving DecidableEq, Repr

/-- The body of a `POST /api/validate-key` request after the express
validators (`validateKeyRequest`) have accepted it, plus `req.ip`. -/
structure ValidateReq where
  key : String
  hwid : String
  ip : String
  fromStoredKey : Bool
deriving DecidableEq, Repr

/-- Success flags for the awaited external writes of one request: a `false`
flag means the corresponding promise rejects and control moves to the
enclosing `catch`.  `incSaveOk` is the `save()` inside `incrementAttempts`,
`bindSaveOk` the one inside `bindToHWID`, `sessionSaveOk` the session-store
writes, `auditOk` the `AuditLog.logEvent` writes performed before a
response is chosen, and `catchAuditOk` the `AuditLog.logEvent` performed
inside the validate-key `catch` block itself. -/
structure Env where
  incSaveOk : Bool
  bindSaveOk : Bool
  sessionSaveOk : Bool
  auditOk : Bool
  catchAuditOk : Bool
deriving DecidableEq, Repr

/-- The fully-healthy environment: every external write succeeds. -/
def envOk : Env := ⟨true, true, true, true, true⟩

/-- JSON response of `POST /api/validate-key`, reduced to the fields the
specification talks about. -/
structure VKResp where
  success : Bool
  httpStatus : Nat
  reason : Option String
  sessionToken : Option Jwt
deriving DecidableEq, Repr

def notFoundResp : VKResp := ⟨false, 404, some "not_found", none⟩
def bannedResp : VKResp := ⟨false, 403, some "banned", none⟩
def suspendedResp : VKResp := ⟨false, 403, some "suspended", none⟩
def expiredResp : VKResp := ⟨false, 410, some "expired", none⟩
def hwidMismatchResp : VKResp := ⟨false, 409, some "hwid_mismatch", none⟩
def serverErrorResp : VKResp := ⟨false, 500, some "server_error", none⟩
def successResp (tok : Jwt) : VKResp := ⟨true, 200, none, some tok⟩

/-- Store state as seen by one validate-key request: the license document
`License.findByKey(req.key)` returns (if any), the session collection and
the audit-log collection. -/
structure VKDb where
  license : Option License
  sessions : List Session
  audits : List AuditEvent
deriving DecidableEq, Repr

/-- Append one audit document (`AuditLog.logEvent` = `new AuditLog(...).save()`). -/
def vkAudit (db : VKDb) (e : AuditEvent) : VKDb :=
  { db with audits := db.audits ++ [e] }

/-- The validate-key `catch` block: it awaits one more
`AuditLog.logEvent('key_validation_failed', …, severity 'error')` and then
answers 500/`server_error`.  If that audit write itself rejects, the
rejection escapes the handler and no JSON response is produced (`none`). -/
def vkCatch (env : Env) (req : ValidateReq) (db : VKDb) :
    Option VKResp × VKDb :=
  if env.catchAuditOk then
    (some serverErrorResp,
     vkAudit db ⟨"key_validation_failed", some req.key, some req.hwid, none,
                 req.ip, Severity.error, none⟩)
  else (none, db)

/-- JS truthiness of the nullable string `license.hwid`. -/
def strTruthy : Option String → Bool
  | none => false
  | some s => s ≠ ""

/-- Fixed session lifetime: `JWT_EXPIRY || '7d'` and
`moment().add(7, 'days')`. -/
def sessionDurationMs : Int := 7 * msPerDay

/-- The `POST /api/validate-key` handler of `src/unnamed/part_004`,
body after the middleware chain accepted the request:

1. `License.findByKey` → miss audits and answers 404 `not_found`;
2. `license.incrementAttempts(ip, fromStoredKey)`;
3. status checks in order `banned`, `suspended`, `isExpired()`;
4. `used && hwid && hwid !== req.hwid` → 409 `hwid_mismatch`;
5. `!used || !hwid` → `bindToHWID(hwid)`;
6. `jwt.sign`, `new Session(...).save()`, success audit, 200.

Every audit write is `await`ed, so its rejection routes to the `catch`
block (`vkCatch`) with whatever store state was already committed.

`validateKeyIssue` is the tail of the handler after the status, expiry
and HWID checks passed (lines 160–234 of the handler): mint the JWT,
persist the session record, write the success audit, answer 200. -/
def validateKeyIssue (env : Env) (secret : String) (now : Int)
    (req : ValidateReq) (db : VKDb) (lic : License) :
    Option VKResp × VKDb :=
  let tok : Jwt := ⟨req.key, req.hwid, lic.licenseType, lic.features,
                    now, now + sessionDurationMs, secret⟩
  let sess : Session := ⟨tok, req.key, req.hwid, now,
                         now + sessionDurationMs, SessStatus.active,
                         now, req.ip, req.ip⟩
  if env.sessionSaveOk then
    let db3 : VKDb := { db with sessions := db.sessions ++ [sess] }
    if env.auditOk then
      (some (successResp tok),
       vkAudit db3 ⟨"key_validation_success", some req.key, some req.hwid,
                    some tok, req.ip, Severity.info, none⟩)
    else vkCatch env req db3
  else vkCatch env req db

/-- The `POST /api/validate-key` handler proper (see the doc comment on
`validateKeyIssue` for the shared tail). -/
def validateKey (env : Env) (secret : String) (now : Int)
    (req : ValidateReq) (db : VKDb) : Option VKResp × VKDb :=
  match db.license with
  | none =>
      if env.auditOk then
        (some notFoundResp,
         vkAudit db ⟨"key_validation_failed", some req.key, some req.hwid,
                     none, req.ip, Severity.warning, some "not_found"⟩)
      else vkCatch env req db
  | some lic0 =>
      let lic1 := lic0.incrementAttempts now req.ip req.fromStoredKey
      if env.incSaveOk then
        let db1 : VKDb := { db with license := some lic1 }
        if lic1.status = LicStatus.banned then
          if env.auditOk then
            (some bannedResp,
             vkAudit db1 ⟨"key_validation_failed", some req.key,
                          some req.hwid, none, req.ip, Severity.critical,
                          some "banned"⟩)
          else vkCatch env req db1
        else if lic1.status = LicStatus.suspended then
          if env.auditOk then
            (some suspendedResp,
             vkAudit db1 ⟨"key_validation_failed", some req.key,
                          some req.hwid, none, req.ip, Severity.warning,
                          some "suspended"⟩)
          else vkCatch env req db1
        else if lic1.isExpired now then
          if env.auditOk then
            (some expiredResp,
             vkAudit db1 ⟨"key_validation_failed", some req.key,
                          some req.hwid, none, req.ip, Severity.info,
                          some "expired"⟩)
          else vkCatch env req db1
        else if lic1.used && strTruthy lic1.hwid &&
                decide (lic1.hwid ≠ some req.hwid) then
          if env.auditOk then
            (some hwidMismatchResp,
             vkAudit db1 ⟨"key_validation_failed", some req.key,
                          some req.hwid, none, req.ip, Severity.critical,
                          some "hwid_mismatch"⟩)
          else vkCatch env req db1
        else
          if !lic1.used || !strTruthy lic1.hwid then
            if env.bindSaveOk then
              let lic2 := lic1.bindToHWID req.hwid now
              let db2 : VKDb := { db1 with license := some lic2 }
              validateKeyIssue env secret now req db2 lic2
            else vkCatch env req db1
          else validateKeyIssue env secret now req db1 lic1
      else vkCatch env req db

/-- Store state seen by the session routes: the session collection and the
audit log. -/
structure SessDb where
  sessions : List Session
  audits : List AuditEvent
deriving DecidableEq, Repr

/-- Append one audit document to a session-route store. -/
def sdAudit (db : SessDb) (e : AuditEvent) : SessDb :=
  { db with audits := db.audits ++ [e] }

/-- JSON response of `POST /api/check-session`: `{valid:true, expiresAt,
lastActivity}`, `{valid:false, reason}` (HTTP 200), or the 500
`server_error` body of the catch block. -/
inductive CSResp where
  | ok (expiresAt : Int) (lastActivity : Int)
  | invalid (reason : String)
  | serverError
deriving DecidableEq, Repr

/-- The `POST /api/check-session` handler of `src/unnamed/part_004`:
`jwt.verify` first (its exception reaches the catch block, which answers
`token_invalid` only when `error.name === 'JsonWebTokenError'` — a
`TokenExpiredError` therefore falls through to the 500 branch); then
`Session.findByToken`, `isActive`, the HWID comparison, `updateActivity`,
and a `session_validated` audit.  Awaited audit/save rejections reach the
same catch block and answer 500. -/
def checkSession (env : Env) (secret : String) (now : Int)
    (tok : Jwt) (hwid : String) (ip : String) (db : SessDb) :
    CSResp × SessDb :=
  match jwtVerify tok secret now with
  | Except.error JwtError.jsonWebTokenError =>
      (CSResp.invalid "token_invalid", db)
  | Except.error JwtError.tokenExpiredError =>
      (CSResp.serverError, db)
  | Except.ok _ =>
      match findByToken db.sessions tok with
      | none =>
          if env.auditOk then
            (CSResp.invalid "session_invalid",
             sdAudit db ⟨"session_validation_failed", none, some hwid,
                         some tok, ip, Severity.warning, none⟩)
          else (CSResp.serverError, db)
      | some s =>
          if !(s.isActive now) then
            if env.auditOk then
              (CSResp.invalid "session_invalid",
               sdAudit db ⟨"session_validation_failed", none, some hwid,
                           some tok, ip, Severity.warning, none⟩)
            else (CSResp.serverError, db)
          else if s.hwid ≠ hwid then
            if env.auditOk then
              (CSResp.invalid "hwid_mismatch",
               sdAudit db ⟨"session_validation_failed", none, some hwid,
                           some tok, ip, Severity.critical, none⟩)
            else (CSResp.serverError, db)
          else
            if env.sessionSaveOk then
              let db1 : SessDb :=
                { db with sessions := saveFirstByToken db.sessions tok
                            (fun u => u.updateActivity now ip) }
              if env.auditOk then
                (CSResp.ok s.expiresAt now,
                 sdAudit db1 ⟨"session_validated", none, some hwid,
                              some tok, ip, Severity.info, none⟩)
              else (CSResp.serverError, db1)
            else (CSResp.serverError, db)

/-- Response of `POST /api/logout` (through the `verifySession`
middleware): `{success:true}` or a failure with HTTP status and the
middleware `reason` (the handler catch answers 500 without a reason). -/
inductive LogoutResp where
  | ok
  | failure (httpStatus : Nat) (reason : Option String)
deriving DecidableEq, Repr

/-- The `POST /api/logout` route: the `verifySession` middleware of
`src/middleware/auth.js` runs first (token presence, `jwt.verify`,
`findByToken`, `isActive`, `updateActivity`), then the handler calls
`session.revoke()` and writes a `session_revoked` audit.

The middleware catch maps `JsonWebTokenError` to 401 `token_invalid` and
every other exception (including `TokenExpiredError` and rejected audit
or save promises) to 500 `verification_error`; its `session_validation_failed`
audit passes no severity, so the schema default `info` applies.  The
handler catch answers 500 with no reason field. -/
def logout (env : Env) (secret : String) (now : Int)
    (tok : Option Jwt) (ip : String) (db : SessDb) : LogoutResp × SessDb :=
  match tok with
  | none => (LogoutResp.failure 401 (some "token_missing"), db)
  | some t =>
      match jwtVerify t secret now with
      | Except.error JwtError.jsonWebTokenError =>
          (LogoutResp.failure 401 (some "token_invalid"), db)
      | Except.error JwtError.tokenExpiredError =>
          (LogoutResp.failure 500 (some "verification_error"), db)
      | Except.ok decoded =>
          match findByToken db.sessions t with
          | none =>
              if env.auditOk then
                (LogoutResp.failure 401 (some "session_invalid"),
                 sdAudit db ⟨"session_validation_failed", none,
                             some decoded.hwid, some t, ip,
                             Severity.info, none⟩)
              else (LogoutResp.failure 500 (some "verification_error"), db)
          | some s =>
              if !(s.isActive now) then
                if env.auditOk then
                  (LogoutResp.failure 401 (some "session_invalid"),
                   sdAudit db ⟨"session_validation_failed", none,
                               some decoded.hwid, some t, ip,
                               Severity.info, none⟩)
                else (LogoutResp.failure 500 (some "verification_error"), db)
              else
                if env.sessionSaveOk then
                  let db1 : SessDb :=
                    { db with sessions := saveFirstByToken db.sessions t
                                (fun u => u.updateActivity now ip) }
                  let db2 : SessDb :=
                    { db1 with sessions := saveFirstByToken db1.sessions t
                                Session.revoke }
                  if env.auditOk then
                    (LogoutResp.ok,
                     sdAudit db2 ⟨"session_revoked", none, some s.hwid,
                                  some t, ip, Severity.info, none⟩)
                  else (LogoutResp.failure 500 none, db2)
                else (LogoutResp.failure 500 (some "verification_error"), db)

/-- Success flags for the admin status route: the license `save()`, the
`Session.updateMany` cascade, and the `admin_action` audit write. -/
structure AdminEnv where
  licSaveOk : Bool
  sessUpdateOk : Bool
  auditOk : Bool
deriving DecidableEq, Repr

/-- Response of `PATCH /admin/licenses/:key/status`, reduced to its four
outcomes. -/
inductive AdminResp where
  | ok
  | badRequest
  | notFound
  | serverError
deriving DecidableEq, Repr

/-- String form of a license status, as stored in the JS document. -/
def LicStatus.str : LicStatus → String
  | LicStatus.active => "active"
  | LicStatus.expired => "expired"
  | LicStatus.banned => "banned"
  | LicStatus.suspended => "suspended"

/-- The note line the admin route appends to `license.metadata.notes`. -/
def statusChangeNote (now : Int) (oldStatus : LicStatus)
    (newStatus : String) (reason : String) : String :=
  "\n[" ++ toString now ++ "] Statut changé de " ++ oldStatus.str ++
  " à " ++ newStatus ++ ". Raison: " ++ reason

/-- Final step of the admin status route: the `admin_action` audit write
(severity `critical` when the new status is `banned`, else `warning`),
then the 200 response. -/
def adminFinishAudit (env : AdminEnv) (key : String) (newStatus : String)
    (ip : String) (db : VKDb) : AdminResp × VKDb :=
  if env.auditOk then
    (AdminResp.ok,
     vkAudit db ⟨"admin_action", some key, none, none, ip,
                 (if newStatus = "banned" then Severity.critical
                  else Severity.warning), none⟩)
  else (AdminResp.serverError, db)

/-- The `PATCH /admin/licenses/:key/status` handler of
`src/unnamed/part_003`: reject statuses outside
`['active','banned','suspended']` (400), 404 on a missing key, set the
status and append a note, save, then — for `banned`/`suspended` only —
`Session.updateMany({licenseKey, status:'active'}, {status:'revoked'})`,
then one `admin_action` audit event.  Any rejected await answers 500. -/
def adminSetStatus (env : AdminEnv) (now : Int) (key : String)
    (newStatus : String) (reason : String) (ip : String) (db : VKDb) :
    AdminResp × VKDb :=
  if !(["active", "banned", "suspended"].contains newStatus) then
    (AdminResp.badRequest, db)
  else
    match db.license with
    | none => (AdminResp.notFound, db)
    | some lic =>
        let st : LicStatus :=
          if newStatus = "banned" then LicStatus.banned
          else if newStatus = "suspended" then LicStatus.suspended
          else LicStatus.active
        let lic1 : License :=
          { lic with status := st,
                     notes := lic.notes ++
                       statusChangeNote now lic.status newStatus reason }
        if env.licSaveOk then
          let db1 : VKDb := { db with license := some lic1 }
          if newStatus = "banned" || newStatus = "suspended" then
            if env.sessUpdateOk then
              let db2 : VKDb :=
                { db1 with sessions := db1.sessions.map (fun s =>
                    if s.licenseKey = key ∧ s.status = SessStatus.active
                    then { s with status := SessStatus.revoked } else s) }
              adminFinishAudit env key newStatus ip db2
            else (AdminResp.serverError, db1)
          else adminFinishAudit env key newStatus ip db1
        else (AdminResp.serverError, db)

/-! ## Concrete fixtures used to instantiate the theorems -/

/-- A fresh, unbound, active license created at time 0 with a 30-day
expiry (2592000000 ms), never attempted. -/
def licA : License :=
  { key := "KEY-AAAA-1111-BBBB-2222", hwid := none, used := false,
    createdAt := 0, expiresAt := 2592000000, status := LicStatus.active,
    attempts := 0, lastAttempt := none, lastAttemptsReset := some 0,
    lastIP := none, licenseType := "basic",
    features := ["lobby_manager"], notes := "" }

/-- `licA` already bound to hwid `HWID-AAAAAAAAAA` (`used = true`). -/
def licBound : License :=
  { licA with hwid := some "HWID-AAAAAAAAAA", used := true }

/-- `licBound` with stored status `banned`. -/
def licBanned : License :=
  { licBound with status := LicStatus.banned }

/-- `licA` with `expiresAt` in the past (time 1000) and stored status
still `active`; last attempts reset at time 0. -/
def licExpired : License :=
  { licA with expiresAt := 1000 }

/-- A validation request presenting `licA`'s key from hwid
`HWID-BBBBBBBBBB` (different from `licBound`'s). -/
def reqB : ValidateReq :=
  { key := "KEY-AAAA-1111-BBBB-2222", hwid := "HWID-BBBBBBBBBB",
    ip := "1.2.3.4", fromStoredKey := false }

/-- A store where the requested key resolves to the fresh `licA`. -/
def dbFresh : VKDb := { license := some licA, sessions := [], audits := [] }

/-- A store where the requested key resolves to the bound `licBound`. -/
def dbBound : VKDb := { license := some licBound, sessions := [], audits := [] }

/-- A store where the requested key resolves to the banned `licBanned`. -/
def dbBanned : VKDb := { license := some licBanned, sessions := [], audits := [] }

/-- A store where the requested key resolves to the expired `licExpired`. -/
def dbExpired : VKDb :=
  { license := some licExpired, sessions := [], audits := [] }

/-- A session token signed with secret `"s"` at time 0, expiring 7 days
later, bound to `licA`/`HWID-AAAAAAAAAA`. -/
def tokA : Jwt :=
  ⟨"KEY-AAAA-1111-BBBB-2222", "HWID-AAAAAAAAAA", "basic",
   ["lobby_manager"], 0, 604800000, "s"⟩

/-- The session record for `tokA`, already revoked. -/
def sessRevoked : Session :=
  ⟨tokA, "KEY-AAAA-1111-BBBB-2222", "HWID-AAAAAAAAAA", 0, 604800000,
   SessStatus.revoked, 0, "1.2.3.4", "1.2.3.4"⟩

/-- A session store holding only the revoked `sessRevoked`. -/
def sdbRevoked : SessDb := { sessions := [sessRevoked], audits := [] }

/-- An active session of `licBound`. -/
def sessActive1 : Session :=
  ⟨tokA, "KEY-AAAA-1111-BBBB-2222", "HWID-AAAAAAAAAA", 0, 604800000,
   SessStatus.active, 0, "1.2.3.4", "1.2.3.4"⟩

/-- A second active session of `licBound` (distinct token). -/
def sessActive2 : Session :=
  { sessActive1 with sessionToken := { tokA with iat := 1 }, createdAt := 1 }

/-- A store with `licBound` and its two active sessions, as in the admin
cascade scenario. -/
def dbAdmin : VKDb :=
  { license := some licBound, sessions := [sessActive1, sessActive2],
    audits := [] }

/-! ## Helper lemmas -/

/-- `incrementAttempts` only touches the attempt-counter bookkeeping:
every other field of the license is unchanged. -/
theorem License.incrementAttempts_frame (lic : License) (now : Int)
    (ip : String) (f : Bool) :
    (lic.incrementAttempts now ip f).key = lic.key ∧
    (lic.incrementAttempts now ip f).hwid = lic.hwid ∧
    (lic.incrementAttempts now ip f).used = lic.used ∧
    (lic.incrementAttempts now ip f).createdAt = lic.createdAt ∧
    (lic.incrementAttempts now ip f).expiresAt = lic.expiresAt ∧
    (lic.incrementAttempts now ip f).status = lic.status ∧
    (lic.incrementAttempts now ip f).licenseType = lic.licenseType ∧
    (lic.incrementAttempts now ip f).features = lic.features ∧
    (lic.incrementAttempts now ip f).notes = lic.notes := by
  unfold License.incrementAttempts
  cases f
  · simp
    split <;> simp
  · simp

/-- A time difference of at least one day makes `shouldResetAttempts`
answer `true`. -/
theorem License.shouldResetAttempts_of_day (lic : License) (now : Int)
    (h : msPerDay ≤ now - (lic.lastAttemptsReset.getD lic.createdAt)) :
    lic.shouldResetAttempts now = true := by
  unfold License.shouldResetAttempts
  simp only [ge_iff_le, decide_eq_true_eq]
  rw [Int.fdiv_eq_ediv _ (by norm_num [msPerDay])]
  rw [Int.le_ediv_iff_mul_le (by norm_num [msPerDay])]
  simp only [msPerDay] at h ⊢
  omega

/-- Repeated `fromStoredKey` refreshes never change `attempts`. -/
theorem storedCalls_attempts (calls : List (Int × String)) (lic : License) :
    (calls.foldl (fun l c => l.incrementAttempts c.1 c.2 true) lic).attempts
      = lic.attempts := by
  induction calls generalizing lic with
  | nil => rfl
  | cons c rest ih =>
      simp only [List.foldl_cons, ih]
      unfold License.incrementAttempts
      simp

/-! ## Claim theorems -/

/-- **C7** — For every license and every validation attempt with
`fromStoredKey = false` made when at least one whole day (≥ 24h,
i.e. `msPerDay` milliseconds) has elapsed since `lastAttemptsReset`
(defaulting to the creation time), the daily reset fires: the counter is
zeroed and `lastAttemptsReset` set to the current time before the
increment, so the attempt completes with `attempts = 1` (not 0). -/
theorem c7_daily_reset_yields_one (lic : License) (now : Int) (ip : String)
    (h : msPerDay ≤ now - (lic.lastAttemptsReset.getD lic.createdAt)) :
    lic.shouldResetAttempts now = true ∧
    (lic.incrementAttempts now ip false).attempts = 1 ∧
    (lic.incrementAttempts now ip false).lastAttemptsReset = some now := by
  have hs := License.shouldResetAttempts_of_day lic now h
  refine ⟨hs, ?_, ?_⟩ <;>
    · unfold License.incrementAttempts
      simp [hs]

/-- Concrete instance of **C7**: a license last reset at time 0, attempted
exactly one day later, ends the attempt with `attempts = 1`. -/
theorem c7_daily_reset_yields_one_witness :
    licA.shouldResetAttempts 86400000 = true ∧
    (licA.incrementAttempts 86400000 "1.2.3.4" false).attempts = 1 ∧
    (licA.incrementAttempts 86400000 "1.2.3.4" false).lastAttemptsReset
      = some 86400000 :=
  c7_daily_reset_yields_one licA 86400000 "1.2.3.4" (by decide)

/-- **C8** — For every license state and every `incrementAttempts` call
with `fromStoredKey = true`, the `attempts` counter is unchanged (only
`lastAttempt` and `lastIP` are refreshed, every other field is untouched),
and `attempts` stays unchanged under arbitrarily many consecutive such
calls. -/
theorem c8_fromStoredKey_preserves_attempts (lic : License) (now : Int)
    (ip : String) :
    (lic.incrementAttempts now ip true).attempts = lic.attempts ∧
    (lic.incrementAttempts now ip true).lastAttemptsReset
      = lic.lastAttemptsReset ∧
    (lic.incrementAttempts now ip true).hwid = lic.hwid ∧
    (lic.incrementAttempts now ip true).used = lic.used ∧
    (lic.incrementAttempts now ip true).status = lic.status ∧
    (lic.incrementAttempts now ip true).expiresAt = lic.expiresAt ∧
    (lic.incrementAttempts now ip true).lastAttempt = some now ∧
    (∀ calls : List (Int × String),
      (calls.foldl (fun l c => l.incrementAttempts c.1 c.2 true) lic).attempts
        = lic.attempts) := by
  refine ⟨?_, ?_, ?_, ?_, ?_, ?_, ?_, fun calls => storedCalls_attempts calls lic⟩ <;>
    · unfold License.incrementAttempts
      simp

/-- **C4** — For every validate-key request on an existing license (all
external writes succeeding), the failure reason is decided by the first
matching rule in the fixed order: `banned`, then `suspended`, then
`expired` (`now` past `expiresAt`), then `hwid_mismatch`.  In particular a
license whose `expiresAt` is in the past but whose stored status is still
`active` fails with reason `expired`, and a banned license that is also
past expiry fails with reason `banned`. -/
theorem c4_failure_reason_order (secret : String) (now : Int)
    (req : ValidateReq) (db : VKDb) (lic : License)
    (h : db.license = some lic) :
    (lic.status = LicStatus.banned →
       (validateKey envOk secret now req db).1 = some bannedResp) ∧
    (lic.status = LicStatus.suspended →
       (validateKey envOk secret now req db).1 = some suspendedResp) ∧
    (lic.status ≠ LicStatus.banned → lic.status ≠ LicStatus.suspended →
     now > lic.expiresAt →
       (validateKey envOk secret now req db).1 = some expiredResp) ∧
    (lic.status ≠ LicStatus.banned → lic.status ≠ LicStatus.suspended →
     ¬ now > lic.expiresAt → lic.used = true → ∀ hw : String,
     lic.hwid = some hw → hw ≠ "" → hw ≠ req.hwid →
       (validateKey envOk secret now req db).1 = some hwidMismatchResp) := by
  obtain ⟨hkey, hhwid, hused, hcre, hexp, hstat, -, -, -⟩ :=
    License.incrementAttempts_frame lic now req.ip req.fromStoredKey
  refine ⟨?_, ?_, ?_, ?_⟩
  · intro hb
    simp [validateKey, h, envOk, hstat, hb]
  · intro hs
    simp [validateKey, h, envOk, hstat, hs]
  · intro hb hs hpast
    simp [validateKey, h, envOk, hstat, hb, hs, License.isExpired, hexp, hpast]
  · intro hb hs hex hu hw hhw hne hneq
    simp [validateKey, h, envOk, hstat, hb, hs, License.isExpired, hexp, hex,
          hused, hu, hhwid, hhw, strTruthy, hne, hneq]

/-- Concrete instance of **C4**: the banned `licBanned` fails `banned`. -/
theorem c4_failure_reason_order_witness :
    (validateKey envOk "s" 0 reqB dbBanned).1 = some bannedResp :=
  (c4_failure_reason_order "s" 0 reqB dbBanned licBanned rfl).1 rfl

/-- The catch block only appends an audit document: license and sessions
survive unchanged. -/
theorem vkCatch_state (env : Env) (req : ValidateReq) (d : VKDb) :
    (vkCatch env req d).2.license = d.license ∧
    (vkCatch env req d).2.sessions = d.sessions := by
  unfold vkCatch vkAudit
  split <;> exact ⟨rfl, rfl⟩

/-- The issuing tail never writes the license collection. -/
theorem validateKeyIssue_license (env : Env) (secret : String) (now : Int)
    (req : ValidateReq) (d : VKDb) (lic : License) :
    (validateKeyIssue env secret now req d lic).2.license = d.license := by
  unfold validateKeyIssue
  split
  · split
    · rfl
    · exact (vkCatch_state env req _).1
  · exact (vkCatch_state env req _).1

/-- Written form of the license record after a validate-key request: it is
untouched, or refreshed by `incrementAttempts`, or additionally bound by
`bindToHWID` — and the bind only happens when the stored record was not
yet (truthily) bound. -/
theorem validateKey_license_shape (env : Env) (secret : String) (now : Int)
    (req : ValidateReq) (db : VKDb) (lic : License)
    (h : db.license = some lic) :
    (validateKey env secret now req db).2.license = db.license ∨
    (validateKey env secret now req db).2.license
        = some (lic.incrementAttempts now req.ip req.fromStoredKey) ∨
    ((validateKey env secret now req db).2.license
        = some ((lic.incrementAttempts now req.ip req.fromStoredKey).bindToHWID
                  req.hwid now) ∧
     (!(lic.incrementAttempts now req.ip req.fromStoredKey).used
        || !strTruthy (lic.incrementAttempts now req.ip req.fromStoredKey).hwid)
       = true) := by
  simp only [validateKey, h]
  repeat' split
  all_goals first
    | exact Or.inl ((vkCatch_state _ _ _).1.trans h)
    | exact Or.inr (Or.inl (vkCatch_state _ _ _).1)
    | exact Or.inr (Or.inl rfl)
    | (right; left; rw [validateKeyIssue_license]; done)
    | (right; right;
       exact ⟨by rw [validateKeyIssue_license], by assumption⟩)

/-- Any JSON response the catch block produces is the 500 `server_error`. -/
theorem vkCatch_resp (env : Env) (req : ValidateReq) (d : VKDb) {r : VKResp}
    (hr : (vkCatch env req d).1 = some r) : r = serverErrorResp := by
  unfold vkCatch at hr
  split at hr
  · cases hr; rfl
  · cases hr

/-- **C1 (amended)** — For every license with `used = true` and a non-null
(truthy) `hwid`, a validate-key request presenting any different hwid
never succeeds and leaves the license's `hwid` unchanged, failing with
reason `hwid_mismatch` whenever no earlier rule of the fixed order
(`banned`, `suspended`, `expired`) preempts it; and under the validation
flow (admin action aside) the `hwid` field is set at most once, from null
to the requesting hwid, and is never overwritten afterwards (stated as
preservation of the binding invariant `used = false → hwid = null`). -/
theorem c1_hwid_set_once (env : Env) (secret : String) (now : Int)
    (req : ValidateReq) (db : VKDb) (lic : License)
    (h : db.license = some lic) :
    ((lic.used = false → lic.hwid = none) → lic.hwid ≠ some "" →
     req.hwid ≠ "" →
     ∀ lic2, (validateKey env secret now req db).2.license = some lic2 →
       ((lic2.used = false → lic2.hwid = none) ∧ lic2.hwid ≠ some "")) ∧
    (∀ hw : String, lic.hwid = some hw → hw ≠ "" → lic.used = true →
     ∀ lic2, (validateKey env secret now req db).2.license = some lic2 →
       lic2.hwid = some hw) ∧
    (∀ hw : String, lic.hwid = some hw → hw ≠ "" → lic.used = true →
     hw ≠ req.hwid → lic.status ≠ LicStatus.banned →
     lic.status ≠ LicStatus.suspended → ¬ now > lic.expiresAt →
       (validateKey envOk secret now req db).1 = some hwidMismatchResp) ∧
    (∀ hw : String, lic.hwid = some hw → hw ≠ "" → lic.used = true →
     hw ≠ req.hwid →
     ∀ r, (validateKey env secret now req db).1 = some r →
       r.success = false) := by
  obtain ⟨fkey, fhwid, fused, fcre, fexp, fstat, -, -, -⟩ :=
    License.incrementAttempts_frame lic now req.ip req.fromStoredKey
  refine ⟨?_, ?_, ?_, ?_⟩
  · intro hinv hne hreq lic2 hlic2
    rcases validateKey_license_shape env secret now req db lic h with
      hs | hs | ⟨hs, -⟩ <;> rw [hs] at hlic2
    · rw [h] at hlic2
      cases hlic2
      exact ⟨hinv, hne⟩
    · cases hlic2
      rw [fused, fhwid]
      exact ⟨hinv, hne⟩
    · cases hlic2
      refine ⟨fun habs => absurd habs (by simp [License.bindToHWID]), ?_⟩
      simpa [License.bindToHWID] using hreq
  · intro hw hhw hne hu lic2 hlic2
    rcases validateKey_license_shape env secret now req db lic h with
      hs | hs | ⟨hs, hguard⟩ <;> rw [hs] at hlic2
    · rw [h] at hlic2
      cases hlic2
      exact hhw
    · cases hlic2
      rw [fhwid]
      exact hhw
    · rw [fused, fhwid, hu, hhw] at hguard
      simp [strTruthy, hne] at hguard
  · intro hw hhw hne hu hneq hb hsus hex
    simp [validateKey, h, envOk, fstat, hb, hsus, License.isExpired, fexp,
          hex, fused, hu, fhwid, hhw, strTruthy, hne, hneq]
  · intro hw hhw hne hu hneq r hr
    have hguardT :
        ((lic.incrementAttempts now req.ip req.fromStoredKey).used &&
         strTruthy (lic.incrementAttempts now req.ip req.fromStoredKey).hwid &&
         decide ((lic.incrementAttempts now req.ip req.fromStoredKey).hwid
                   ≠ some req.hwid)) = true := by
      rw [fused, fhwid, hu, hhw]
      simp [strTruthy, hne, hneq]
    simp only [validateKey, h] at hr
    repeat' split at hr
    all_goals first
      | exact absurd hguardT (by assumption)
      | (cases hr; rfl)
      | (rw [vkCatch_resp _ _ _ hr]; rfl)

/-- Concrete instance of **C1**: the bound `licBound` presented with the
different hwid of `reqB` fails `hwid_mismatch`. -/
theorem c1_hwid_set_once_witness :
    (validateKey envOk "s" 5 reqB dbBound).1 = some hwidMismatchResp :=
  (c1_hwid_set_once envOk "s" 5 reqB dbBound licBound rfl).2.2.1
    "HWID-AAAAAAAAAA" rfl (by decide) rfl (by decide) (by decide)
    (by decide) (by decide)

/-- **C1, claim as stated, refuted** — a *banned* license with `used = true`
and a bound hwid, presented with a different hwid, fails with reason
`banned`, not `hwid_mismatch`: the claim's unconditional "fails with
reason hwid_mismatch" does not hold when an earlier rule of the fixed
order preempts the binding check. -/
theorem c1_counterexample :
    licBanned.used = true ∧
    licBanned.hwid = some "HWID-AAAAAAAAAA" ∧
    "HWID-AAAAAAAAAA" ≠ reqB.hwid ∧
    dbBanned.license = some licBanned ∧
    (validateKey envOk "s" 5 reqB dbBanned).1 = some bannedResp ∧
    bannedResp ≠ hwidMismatchResp := by
  refine ⟨rfl, rfl, by decide, rfl, ?_, by decide⟩
  rfl

/-- A JSON response of the issuing tail is either the 200 success or the
catch block's 500 `server_error`. -/
theorem validateKeyIssue_resp (env : Env) (secret : String) (now : Int)
    (req : ValidateReq) (d : VKDb) (lic : License) {r : VKResp} {db' : VKDb}
    (hr : validateKeyIssue env secret now req d lic = (some r, db')) :
    r.success = true ∨ r = serverErrorResp := by
  unfold validateKeyIssue at hr
  split at hr
  · split at hr
    · cases hr; left; rfl
    · right; exact vkCatch_resp _ _ _ (congrArg Prod.fst hr)
  · right; exact vkCatch_resp _ _ _ (congrArg Prod.fst hr)

/-- **C2 (amended)** — On a validate-key request, whenever the response
reports failure with any reason other than `server_error` (i.e. one of
the policy rejections `not_found`/`banned`/`suspended`/`expired`/
`hwid_mismatch`), the license's `hwid` and `used` fields are unchanged and
no session record is persisted.  (A `server_error` response carries no such
guarantee: the handler binds the HWID before persisting the session and
audits before responding, so a late failure can leave a newly bound HWID
or a persisted session record behind — see the counterexample.) -/
theorem c2_policy_failure_commits_nothing (env : Env) (secret : String)
    (now : Int) (req : ValidateReq) (db : VKDb) (r : VKResp) (db' : VKDb)
    (hr : validateKey env secret now req db = (some r, db'))
    (hfail : r.success = false)
    (hnot : r.reason ≠ some "server_error") :
    db'.license.map License.hwid = db.license.map License.hwid ∧
    db'.license.map License.used = db.license.map License.used ∧
    db'.sessions = db.sessions := by
  cases hdb : db.license with
  | none =>
      simp only [validateKey, hdb] at hr
      split at hr
      · cases hr
        simp [vkAudit, hdb]
      · exact absurd (by rw [vkCatch_resp _ _ _ (congrArg Prod.fst hr)]; rfl)
          hnot
  | some lic =>
      obtain ⟨-, fhwid, fused, -, -, -, -, -, -⟩ :=
        License.incrementAttempts_frame lic now req.ip req.fromStoredKey
      simp only [validateKey, hdb] at hr
      repeat' split at hr
      all_goals first
        | exact absurd
            (by rw [vkCatch_resp _ _ _ (congrArg Prod.fst hr)]; rfl) hnot
        | (cases hr; simp [vkAudit, hdb, fhwid, fused])
        | (rcases validateKeyIssue_resp _ _ _ _ _ _ hr with hs | hs <;>
             simp_all [successResp, serverErrorResp])

/-- Concrete instance of **C2**: the banned policy rejection leaves hwid,
used and the session store unchanged. -/
theorem c2_policy_failure_commits_nothing_witness :
    (validateKey envOk "s" 5 reqB dbBanned).2.license.map License.hwid
        = dbBanned.license.map License.hwid ∧
    (validateKey envOk "s" 5 reqB dbBanned).2.license.map License.used
        = dbBanned.license.map License.used ∧
    (validateKey envOk "s" 5 reqB dbBanned).2.sessions
        = dbBanned.sessions :=
  c2_policy_failure_commits_nothing envOk "s" 5 reqB dbBanned bannedResp
    (validateKey envOk "s" 5 reqB dbBanned).2 rfl rfl (by decide)

/-- **C2, claim as stated, refuted** — with every write healthy except the
session-record save, a fresh unbound license yields a `server_error`
failure response *and* a newly bound (persisted) HWID: an error path did
bind a HWID. -/
theorem c2_counterexample :
    (validateKey ⟨true, true, false, true, true⟩ "s" 5 reqB dbFresh).1
        = some serverErrorResp ∧
    (validateKey ⟨true, true, false, true, true⟩ "s" 5 reqB
        dbFresh).2.license.map License.hwid
        = some (some "HWID-BBBBBBBBBB") ∧
    dbFresh.license.map License.hwid = some none ∧
    serverErrorResp.success = false := by
  refine ⟨rfl, rfl, rfl, rfl⟩

/-- **C3 (amended)** — A failure of the audit-log write does change the
primary response: `AuditLog.logEvent` is awaited with no internal error
handling before every response is sent, so when the audit write rejects
(and the catch block's own audit write succeeds) every validate-key
request — whatever its primary outcome would have been — answers the 500
`server_error`. -/
theorem c3_audit_failure_escalates (secret : String) (now : Int)
    (req : ValidateReq) (db : VKDb) :
    (validateKey ⟨true, true, true, false, true⟩ secret now req db).1
      = some serverErrorResp := by
  cases hdb : db.license with
  | none => simp [validateKey, hdb, vkCatch]
  | some lic =>
      simp only [validateKey, hdb]
      repeat' split
      all_goals simp_all [vkCatch, validateKeyIssue, vkAudit]

/-- **C3, claim as stated, refuted** — the same banned-key request answers
`banned` when the audit write succeeds but `server_error` when it fails:
an audit-write failure escalates to a user-visible change of the primary
response. -/
theorem c3_counterexample :
    (validateKey envOk "s" 5 reqB dbBanned).1 = some bannedResp ∧
    (validateKey ⟨true, true, true, false, true⟩ "s" 5 reqB dbBanned).1
        = some serverErrorResp ∧
    bannedResp ≠ serverErrorResp :=
  ⟨rfl, rfl, by decide⟩

/-- The final audit step of the admin status route never writes the
license collection. -/
theorem adminFinishAudit_license (env : AdminEnv) (key ns ip : String)
    (d : VKDb) :
    (adminFinishAudit env key ns ip d).2.license = d.license := by
  unfold adminFinishAudit vkAudit
  split <;> rfl

/-- The final audit step of the admin status route never writes the
session collection. -/
theorem adminFinishAudit_sessions (env : AdminEnv) (key ns ip : String)
    (d : VKDb) :
    (adminFinishAudit env key ns ip d).2.sessions = d.sessions := by
  unfold adminFinishAudit vkAudit
  split <;> rfl

/-- **C10 (amended)** — A validation attempt that fails with reason
`expired` never writes the derived state back: the license's stored
`status`, `hwid`, `used` and `expiresAt` fields are unchanged by that
attempt (only the attempt-counter bookkeeping `attempts`, `lastAttempt`,
`lastIP` — and, on a lazy daily-reset boundary, `lastAttemptsReset` — may
change), and no session is persisted; moreover no core operation ever
sets `status` to `expired`: a validate-key request never changes the
stored status at all, and the admin status route can only write
`active`/`banned`/`suspended` — the `expired` outcome is always recomputed
from `expiresAt` at read time. -/
theorem c10_expired_is_derived_not_stored (secret : String) (now : Int)
    (req : ValidateReq) (db : VKDb) (lic : License)
    (h : db.license = some lic) (hb : lic.status ≠ LicStatus.banned)
    (hs : lic.status ≠ LicStatus.suspended) (hpast : now > lic.expiresAt) :
    (validateKey envOk secret now req db).1 = some expiredResp ∧
    (validateKey envOk secret now req db).2.license.map License.status
        = some lic.status ∧
    (validateKey envOk secret now req db).2.license.map License.hwid
        = some lic.hwid ∧
    (validateKey envOk secret now req db).2.license.map License.used
        = some lic.used ∧
    (validateKey envOk secret now req db).2.license.map License.expiresAt
        = some lic.expiresAt ∧
    (validateKey envOk secret now req db).2.sessions = db.sessions ∧
    (∀ env2 : Env,
       (validateKey env2 secret now req db).2.license.map License.status
         = db.license.map License.status) ∧
    (∀ (aenv : AdminEnv) (now2 : Int) (key ns rsn ip : String) (adb : VKDb)
       (lic2 : License),
       (adminSetStatus aenv now2 key ns rsn ip adb).2.license = some lic2 →
       lic2.status = LicStatus.expired →
       adb.license.map License.status = some LicStatus.expired) := by
  obtain ⟨fkey, fhwid, fused, fcre, fexp, fstat, -, -, -⟩ :=
    License.incrementAttempts_frame lic now req.ip req.fromStoredKey
  refine ⟨?_, ?_, ?_, ?_, ?_, ?_, ?_, ?_⟩
  · simp [validateKey, h, envOk, fstat, hb, hs, License.isExpired, fexp,
          hpast]
  · simp [validateKey, h, envOk, fstat, hb, hs, License.isExpired, fexp,
          hpast, vkAudit]
  · simp [validateKey, h, envOk, fstat, hb, hs, License.isExpired, fexp,
          hpast, vkAudit, fhwid]
  · simp [validateKey, h, envOk, fstat, hb, hs, License.isExpired, fexp,
          hpast, vkAudit, fused]
  · simp [validateKey, h, envOk, fstat, hb, hs, License.isExpired, fexp,
          hpast, vkAudit]
  · simp [validateKey, h, envOk, fstat, hb, hs, License.isExpired, fexp,
          hpast, vkAudit]
  · intro env2
    rcases validateKey_license_shape env2 secret now req db lic h with
      hsh | hsh | ⟨hsh, -⟩ <;> rw [hsh, h] <;>
      simp [fstat, License.bindToHWID]
  · intro aenv now2 key ns rsn ip adb lic2 hlic2 heq
    simp only [adminSetStatus] at hlic2
    repeat' split at hlic2
    all_goals
      try (rw [adminFinishAudit_license] at hlic2)
    all_goals simp_all
    all_goals
      rw [← hlic2] at heq
      simp at heq

/-- Concrete instance of **C10**: validating the expired `licExpired`
fails `expired` and leaves its stored status `active`. -/
theorem c10_expired_is_derived_not_stored_witness :
    (validateKey envOk "s" 2000 reqB dbExpired).1 = some expiredResp ∧
    (validateKey envOk "s" 2000 reqB dbExpired).2.license.map License.status
        = some licExpired.status :=
  ⟨(c10_expired_is_derived_not_stored "s" 2000 reqB dbExpired licExpired
      rfl (by decide) (by decide) (by decide)).1,
   (c10_expired_is_derived_not_stored "s" 2000 reqB dbExpired licExpired
      rfl (by decide) (by decide) (by decide)).2.1⟩

/-- **C10, claim as stated, refuted** — on a lazy daily-reset boundary an
`expired`-failing attempt also rewrites `lastAttemptsReset`, which the
claim's exhaustive list "only attempts/lastAttempt/lastIP may change"
excludes. -/
theorem c10_counterexample :
    (validateKey envOk "s" 172800000 reqB dbExpired).1 = some expiredResp ∧
    (validateKey envOk "s" 172800000 reqB dbExpired).2.license.map
        License.lastAttemptsReset = some (some 172800000) ∧
    dbExpired.license.map License.lastAttemptsReset = some (some 0) :=
  ⟨rfl, rfl, rfl⟩

/-- **C5 (amended)** — A check-session request whose token fails
*signature* verification (`JsonWebTokenError`) answers `token_invalid`
without consulting or changing the session store; but a token whose
embedded expiry has passed raises `TokenExpiredError`, whose `name` is not
`'JsonWebTokenError'`, so the catch block answers the 500 `server_error`
instead of `token_invalid` — also without consulting the store. -/
theorem c5_token_verify_before_store (env : Env) (secret : String)
    (now : Int) (tok : Jwt) (hwid ip : String) (db : SessDb) :
    (tok.secret ≠ secret →
       checkSession env secret now tok hwid ip db
         = (CSResp.invalid "token_invalid", db)) ∧
    (tok.secret = secret → now > tok.exp →
       checkSession env secret now tok hwid ip db
         = (CSResp.serverError, db)) := by
  constructor
  · intro hs
    simp [checkSession, jwtVerify, hs]
  · intro hs hexp
    simp [checkSession, jwtVerify, hs, hexp]

/-- Concrete instance of **C5**: a token signed with a different secret
answers `token_invalid` and leaves the store untouched. -/
theorem c5_token_verify_before_store_witness :
    checkSession envOk "other" 5 tokA "HWID-AAAAAAAAAA" "1.2.3.4" sdbRevoked
      = (CSResp.invalid "token_invalid", sdbRevoked) :=
  (c5_token_verify_before_store envOk "other" 5 tokA "HWID-AAAAAAAAAA"
    "1.2.3.4" sdbRevoked).1 (by decide)

/-- **C5, claim as stated, refuted** — a correctly signed token whose
embedded expiry has passed answers the 500 `server_error`, not
`token_invalid`. -/
theorem c5_counterexample :
    checkSession envOk "s" 604800001 tokA "HWID-AAAAAAAAAA" "1.2.3.4"
        sdbRevoked = (CSResp.serverError, sdbRevoked) ∧
    CSResp.serverError ≠ CSResp.invalid "token_invalid" :=
  ⟨rfl, by decide⟩

/-- **C6 (amended)** — A logout request presenting the token of a session
already in status `revoked` is rejected by the `verifySession` middleware
with 401 `session_invalid` (it does not return success), and it does not
alter any stored session (in particular `lastActivity`); at the model
level `Session.revoke` itself is idempotent: re-revoking keeps `status =
revoked` and never touches `lastActivity`. -/
theorem c6_double_logout_rejected (secret : String) (now : Int) (tok : Jwt)
    (ip : String) (db : SessDb) (s : Session)
    (hfind : findByToken db.sessions tok = some s)
    (hrev : s.status = SessStatus.revoked)
    (hsig : tok.secret = secret) (hexp : ¬ now > tok.exp) :
    (logout envOk secret now (some tok) ip db).1
        = LogoutResp.failure 401 (some "session_invalid") ∧
    (logout envOk secret now (some tok) ip db).2.sessions = db.sessions ∧
    Session.revoke (Session.revoke s) = Session.revoke s ∧
    (Session.revoke s).lastActivity = s.lastActivity := by
  refine ⟨?_, ?_, by simp [Session.revoke], by simp [Session.revoke]⟩ <;>
    simp [logout, jwtVerify, hsig, hexp, hfind, Session.isActive, hrev,
          sdAudit, envOk]

/-- Concrete instance of **C6**: a second logout with the revoked
`sessRevoked`'s token is rejected with `session_invalid`. -/
theorem c6_double_logout_rejected_witness :
    (logout envOk "s" 5 (some tokA) "1.2.3.4" sdbRevoked).1
        = LogoutResp.failure 401 (some "session_invalid") ∧
    (logout envOk "s" 5 (some tokA) "1.2.3.4" sdbRevoked).2.sessions
        = sdbRevoked.sessions :=
  ⟨(c6_double_logout_rejected "s" 5 tokA "1.2.3.4" sdbRevoked sessRevoked
      rfl rfl rfl (by decide)).1,
   (c6_double_logout_rejected "s" 5 tokA "1.2.3.4" sdbRevoked sessRevoked
      rfl rfl rfl (by decide)).2.1⟩

/-- **C6, claim as stated, refuted** — logging out an already-revoked
session does not return success: the response is the middleware's 401
`session_invalid` failure. -/
theorem c6_counterexample :
    sessRevoked.status = SessStatus.revoked ∧
    (logout envOk "s" 5 (some tokA) "1.2.3.4" sdbRevoked).1
        = LogoutResp.failure 401 (some "session_invalid") ∧
    LogoutResp.failure 401 (some "session_invalid") ≠ LogoutResp.ok :=
  ⟨rfl, rfl, by decide⟩

/-- **C9** — When an admin status change (all writes healthy) sets an
existing license's status to `banned` or `suspended`, the request
succeeds, every session of that license that was in status `active` is
set to `revoked` as part of the same operation (afterwards no session of
that key is `active`), and a single `admin_action` audit event is
emitted, with severity `critical` when the new status is `banned` (and
`warning` otherwise). -/
theorem c9_cascade_revoke (now : Int) (key ns rsn ip : String) (db : VKDb)
    (lic : License) (h : db.license = some lic)
    (hns : ns = "banned" ∨ ns = "suspended") :
    (adminSetStatus ⟨true, true, true⟩ now key ns rsn ip db).1
        = AdminResp.ok ∧
    (adminSetStatus ⟨true, true, true⟩ now key ns rsn ip db).2.sessions
        = db.sessions.map (fun t =>
            if t.licenseKey = key ∧ t.status = SessStatus.active
            then { t with status := SessStatus.revoked } else t) ∧
    (∀ s, s ∈ (adminSetStatus ⟨true, true, true⟩ now key ns rsn ip
                 db).2.sessions →
       s.licenseKey = key → s.status ≠ SessStatus.active) ∧
    (adminSetStatus ⟨true, true, true⟩ now key ns rsn ip db).2.audits
        = db.audits ++
          [⟨"admin_action", some key, none, none, ip,
            (if ns = "banned" then Severity.critical else Severity.warning),
            none⟩] := by
  have hAll : ∀ s, s ∈ (db.sessions.map (fun t =>
      if t.licenseKey = key ∧ t.status = SessStatus.active
      then { t with status := SessStatus.revoked } else t)) →
      s.licenseKey = key → s.status ≠ SessStatus.active := by
    intro s hmem hkey
    rcases List.mem_map.mp hmem with ⟨t, -, rfl⟩
    by_cases hc : t.licenseKey = key ∧ t.status = SessStatus.active
    · simp [hc]
    · rw [if_neg hc] at hkey ⊢
      intro habs
      exact hc ⟨hkey, habs⟩
  rcases hns with rfl | rfl
  · have hsess :
        (adminSetStatus ⟨true, true, true⟩ now key "banned" rsn ip
           db).2.sessions
          = db.sessions.map (fun t =>
              if t.licenseKey = key ∧ t.status = SessStatus.active
              then { t with status := SessStatus.revoked } else t) := by
      simp [adminSetStatus, h, adminFinishAudit, vkAudit]
    refine ⟨by simp [adminSetStatus, h, adminFinishAudit, vkAudit], hsess,
            ?_, by simp [adminSetStatus, h, adminFinishAudit, vkAudit]⟩
    rw [hsess]
    exact hAll
  · have hsess :
        (adminSetStatus ⟨true, true, true⟩ now key "suspended" rsn ip
           db).2.sessions
          = db.sessions.map (fun t =>
              if t.licenseKey = key ∧ t.status = SessStatus.active
              then { t with status := SessStatus.revoked } else t) := by
      simp [adminSetStatus, h, adminFinishAudit, vkAudit]
    refine ⟨by simp [adminSetStatus, h, adminFinishAudit, vkAudit], hsess,
            ?_, by simp [adminSetStatus, h, adminFinishAudit, vkAudit]⟩
    rw [hsess]
    exact hAll

/-- Concrete instance of **C9**: banning `licBound` with its two active
sessions succeeds and revokes both. -/
theorem c9_cascade_revoke_witness :
    (adminSetStatus ⟨true, true, true⟩ 99 "KEY-AAAA-1111-BBBB-2222"
        "banned" "abuse" "9.9.9.9" dbAdmin).1 = AdminResp.ok ∧
    (adminSetStatus ⟨true, true, true⟩ 99 "KEY-AAAA-1111-BBBB-2222"
        "banned" "abuse" "9.9.9.9" dbAdmin).2.sessions
      = dbAdmin.sessions.map (fun t =>
          if t.licenseKey = "KEY-AAAA-1111-BBBB-2222" ∧
             t.status = SessStatus.active
          then { t with status := SessStatus.revoked } else t) :=
  ⟨(c9_cascade_revoke 99 "KEY-AAAA-1111-BBBB-2222" "banned" "abuse"
      "9.9.9.9" dbAdmin licBound rfl (Or.inl rfl)).1,
   (c9_cascade_revoke 99 "KEY-AAAA-1111-BBBB-2222" "banned" "abuse"
      "9.9.9.9" dbAdmin licBound rfl (Or.inl rfl)).2.1⟩
